import Mathlib

/-!
Verification of the MarkupField synchronization mechanism of
django-markupfield (markupfield/fields.py).

The embedding models one logical markup field of one host record.  A host
record carries the three co-located slots the field provisions:
raw text (the primary attribute), the markup-type tag, and the rendered
cache.  Python attribute values that may be `None` are `Option String`.
Python exceptions are an explicit error type, and fallible operations
return `Except`.  Where the persistence hook also mutates the host
(`setattr` of the rendered cache), the operation returns the resulting
host alongside the `Except` result, with the unchanged host on the error
paths (the source raises before any write on those paths).
-/

/-- Python exceptions observed by the modelled code paths. -/
inductive PyErr where
  /-- `ValueError(msg)` as raised in `MarkupField.__init__` and
  `MarkupField.pre_save`. -/
  | valueError (msg : String)
  /-- `KeyError(key)` from a failed dict lookup `d[key]`. -/
  | keyError (key : String)
  /-- `AttributeError(msg)`, as raised by `MarkupDescriptor.__get__` when
  accessed on the class. -/
  | attributeError (msg : String)
  /-- `AttributeError` from accessing attribute `attr` on `None`. -/
  | noneTypeAttributeError (attr : String)
  /-- `NotImplementedError` from the base `Markup.render`. -/
  | notImplementedError
  /-- `TypeError` (e.g. a string-typed renderer applied to `None`). -/
  | typeError (msg : String)
  deriving DecidableEq, Repr

/-- A registry entry (`markup_choices` value): either a plain filter
function `text -> html` (`types.FunctionType` in the source), or a rich
renderer class whose instances implement `render()` reading the host's
raw attribute (which may be `None`, hence `Option String`). -/
inductive Renderer where
  | fn (f : String → String)
  | cls (render : Option String → String)

/-- The renderer registry `markup_choices`: an ordered-key mapping from
markup-type name to renderer, modelled as an association list with
first-match lookup. -/
abbrev Registry := List (String × Renderer)

/-- One host record's three co-located slots for a single markup field:
`instance.__dict__[field.name]`, `instance.__dict__[markup_type_field_name]`
and the rendered-cache attribute. -/
structure Host where
  raw : Option String
  markupType : Option String
  rendered : Option String
  deriving DecidableEq, Repr

/-- The concrete class of a bound accessor: the default `Markup` class, or
the rich renderer class stored in the registry (`markup_class` in
`MarkupDescriptor.__get__`). -/
inductive MarkupClass where
  | base
  | rich (render : Option String → String)

/-- A bound composite attribute accessor (`Markup` object or a subclass
instance): it stores the host it is bound to, not copies of the values. -/
structure Markup where
  kind : MarkupClass
  host : Host

/-- `Markup.raw`: passthrough read of the host's raw-text slot. -/
def Markup.raw (a : Markup) : Option String := a.host.raw

/-- `Markup.markup_type`: passthrough read of the host's markup-type slot. -/
def Markup.markup_type (a : Markup) : Option String := a.host.markupType

/-- `Markup.rendered`: read-only view of the host's rendered-cache slot. -/
def Markup.rendered (a : Markup) : Option String := a.host.rendered

/-- `mark_safe`: tags a value as pre-escaped/trusted HTML. -/
structure SafeString where
  val : Option String
  deriving DecidableEq, Repr

/-- `django.utils.safestring.mark_safe` applied to the (possibly `None`)
argument. -/
def mark_safe (s : Option String) : SafeString := ⟨s⟩

/-- `Markup.__unicode__`: string conversion of a bound accessor,
`mark_safe(self.rendered)`. -/
def Markup.unicode (a : Markup) : SafeString := mark_safe a.rendered

/-- `value.render()` as invoked by `MarkupField.pre_save`: the base
`Markup.render` is not implemented (fields.py line 132), a rich renderer
class renders from its own bound raw text. -/
def Markup.render (a : Markup) : Except PyErr String :=
  match a.kind with
  | .base => .error .notImplementedError
  | .rich g => .ok (g a.host.raw)

/-- `MarkupDescriptor.__get__` (fields.py lines 144-159).  `inst` is the
`instance` argument, `none` for access on the class itself.  Reads the raw and markup-type
slots; a `None` markup type yields `None`; a plain-function registry entry
with `None` raw text yields `None`; otherwise a bound accessor of the
dispatched class.  The registry indexing `self.markup_choices[markup_type]`
raises `KeyError` for an unregistered type. -/
def markupDescriptorGet (choices : Registry) (inst : Option Host) :
    Except PyErr (Option Markup) :=
  match inst with
  | none => .error (.attributeError "Can only be accessed via an instance.")
  | some host =>
    match host.markupType with
    | none => .ok none
    | some mt =>
      match choices.lookup mt with
      | none => .error (.keyError mt)
      | some (.fn _) =>
        match host.raw with
        | none => .ok none
        | some _ => .ok (some ⟨MarkupClass.base, host⟩)
      | some (.cls g) => .ok (some ⟨MarkupClass.rich g, host⟩)

/-- The value assigned through the descriptor: either a `Markup` accessor
(`isinstance(value, Markup)`) or anything else, treated as a raw-text
write. -/
inductive SetValue where
  | markup (a : Markup)
  | rawVal (v : Option String)

/-- `MarkupDescriptor.__set__` (fields.py lines 161-167): an accessor
value has its raw, rendered and markup-type copied verbatim onto the
host's three slots; any other value is written to the raw slot only. -/
def markupDescriptorSet (obj : Host) (value : SetValue) : Host :=
  match value with
  | .markup a =>
    { obj with raw := a.raw, rendered := a.rendered, markupType := a.markup_type }
  | .rawVal v => { obj with raw := v }

/-- The `', '.join(choices.iterkeys())` enumeration of registry keys. -/
def joinKeys (choices : Registry) : String :=
  String.intercalate ", " (choices.map Prod.fst)

/-- The `pre_save` error message
`'Invalid markup type (%s), allowed values: %s'` (fields.py line 204). -/
def invalidMarkupTypeMsg (mt : String) (choices : Registry) : String :=
  "Invalid markup type (" ++ mt ++ "), allowed values: " ++ joinKeys choices

/-- `MarkupField.pre_save` (fields.py lines 201-213).  `value` is
`getattr(model_instance, self.attname)` (Django `Field.pre_save`), which
goes through `MarkupDescriptor.__get__`.  Returns the host as left after
the call (the rendered-cache `setattr` is the only mutation) together with
the raised exception or the returned value for the primary field. -/
def pre_save (choices : Registry) (host : Host) :
    Host × Except PyErr (Option String) :=
  match markupDescriptorGet choices (some host) with
  | .error e => (host, .error e)
  | .ok none =>
    -- `value.markup_type` with `value = None`
    (host, .error (.noneTypeAttributeError "markup_type"))
  | .ok (some value) =>
    match value.markup_type with
    | none =>
      -- `None not in self.markup_choices` holds, `'%s' % None` prints None
      (host, .error (.valueError (invalidMarkupTypeMsg "None" choices)))
    | some mt =>
      match choices.lookup mt with
      | none => (host, .error (.valueError (invalidMarkupTypeMsg mt choices)))
      | some (.fn f) =>
        match value.raw with
        | none =>
          -- unreachable from `__get__` (a plain-function entry with None
          -- raw yields a None accessor); a str-typed filter on None fails
          (host, .error (.typeError "expected string or buffer"))
        | some r =>
          ({ host with rendered := some (f r) }, .ok value.raw)
      | some (.cls _) =>
        match value.render with
        | .error e => (host, .error e)
        | .ok rendered =>
          ({ host with rendered := some rendered }, .ok value.raw)

/-- `MarkupField.value_to_string` (fields.py lines 221-223):
`self._get_val_from_obj(obj)` is `getattr(obj, self.attname)` through the
descriptor, then `.raw` is returned (`None.raw` is an attribute error). -/
def value_to_string (choices : Registry) (host : Host) :
    Except PyErr (Option String) :=
  match markupDescriptorGet choices (some host) with
  | .error e => .error e
  | .ok none => .error (.noneTypeAttributeError "raw")
  | .ok (some value) => .ok value.raw

/-- Python truthiness of an optional string (`None` and `''` are falsy). -/
def optStrTruthy : Option String → Bool
  | none => false
  | some s => !s.isEmpty

/-- Python truthiness of an optional dict (`None` and `{}` are falsy). -/
def optRegTruthy : Option Registry → Bool
  | none => false
  | some l => !l.isEmpty

/-- The configuration state `MarkupField.__init__` establishes. -/
structure FieldConfig where
  default_markup_type : Option String
  markup_choices : Registry
  markup_type_editable : Bool

/-- `MarkupField.__init__` (fields.py lines 172-185): configuration
validation at field-definition time.  `globalTypes` stands for the
module-level `_MARKUP_TYPES` fallback registry. -/
def markupFieldInit (globalTypes : Registry) (markup_type : Option String)
    (markup_choices : Option Registry) (default_markup_type : Option String) :
    Except PyErr FieldConfig :=
  if optStrTruthy markup_type &&
      (optRegTruthy markup_choices || optStrTruthy default_markup_type) then
    .error (.valueError
      "Cannot specify both markup_type and markup_choices/default_markup_type")
  else if optRegTruthy markup_choices && !optStrTruthy default_markup_type then
    .error (.valueError "No default_markup_type specified.")
  else
    let dmt := if optStrTruthy markup_type then markup_type
               else default_markup_type
    let choices := if optRegTruthy markup_choices then markup_choices.getD []
                   else globalTypes
    if optStrTruthy dmt && (dmt.bind choices.lookup).isNone then
      .error (.valueError ("Invalid markup type, allowed values: " ++
        joinKeys choices))
    else
      .ok ⟨dmt, choices, markup_type.isNone⟩

/-- The dispatch `pre_save` performs over a registry entry on a host whose
raw text is `r`: a plain function is applied to `r`, a rich renderer class
renders from the bound raw slot holding `r`. -/
def applyRenderer : Renderer → String → String
  | .fn f, r => f r
  | .cls g, r => g (some r)

/-- Any accessor produced by an instance read is bound to that very host
record (the source constructs `markup_class(instance, ...)`). -/
theorem markupDescriptorGet_host (choices : Registry) (host : Host) (acc : Markup)
    (h : markupDescriptorGet choices (some host) = .ok (some acc)) :
    acc.host = host := by
  unfold markupDescriptorGet at h
  cases hmt : host.markupType with
  | none => simp [hmt] at h
  | some mt =>
    simp only [hmt] at h
    cases hlk : choices.lookup mt with
    | none => simp [hlk] at h
    | some ren =>
      cases ren with
      | fn f =>
        simp only [hlk] at h
        cases hraw : host.raw with
        | none => simp [hraw] at h
        | some r =>
          simp only [hraw, Except.ok.injEq, Option.some.injEq] at h
          exact congrArg Markup.host h.symm
      | cls g =>
        simp only [hlk, Except.ok.injEq, Option.some.injEq] at h
        exact congrArg Markup.host h.symm

/-- C1: for a record whose current markup type is a registry key (and raw
text present), `pre_save` stores the rendered HTML into the rendered-cache
slot — the plain function applied to the current raw text for a function
entry, the rich renderer's own render on the bound raw text otherwise —
leaves raw and markup type untouched, and returns the current raw text as
the value to persist; for plain-function entries the cache equals
`f raw` exactly. -/
theorem pre_save_renders_and_returns_raw (choices : Registry) (host : Host)
    (mt r : String) (ren : Renderer)
    (hmt : host.markupType = some mt) (hraw : host.raw = some r)
    (hlk : choices.lookup mt = some ren) :
    pre_save choices host =
      ({ host with rendered := some (applyRenderer ren r) }, .ok (some r)) ∧
    ∀ f, ren = Renderer.fn f → applyRenderer ren r = f r := by
  constructor
  · cases ren with
    | fn f =>
      unfold pre_save markupDescriptorGet
      simp [hmt, hlk, hraw, Markup.markup_type, Markup.raw, applyRenderer]
    | cls g =>
      unfold pre_save markupDescriptorGet
      simp [hmt, hlk, hraw, Markup.markup_type, Markup.raw, Markup.render,
        applyRenderer]
  · intro f hf
    cases hf
    rfl

/-- C1 witness: identity renderer under key html, raw text x. -/
theorem pre_save_renders_and_returns_raw_witness :
    pre_save [("html", Renderer.fn (fun s => s))]
        ⟨some "x", some "html", none⟩ =
      (⟨some "x", some "html", some "x"⟩, .ok (some "x")) :=
  (pre_save_renders_and_returns_raw [("html", Renderer.fn (fun s => s))]
    ⟨some "x", some "html", none⟩ "html" "x" (Renderer.fn (fun s => s))
    rfl rfl rfl).1

/-- C2 counterexample: with registry holding only the key html, persisting
a record whose markup type is the unregistered string bad raises
`KeyError('bad')` — raised by the registry indexing inside the descriptor
read that `pre_save` performs — not the `ValueError` whose message
enumerates the valid keys (fields.py line 204, which is unreachable). -/
theorem pre_save_invalid_type_counterexample :
    pre_save [("html", Renderer.fn (fun s => s))]
        ⟨some "x", some "bad", none⟩ =
      (⟨some "x", some "bad", none⟩, .error (.keyError "bad")) ∧
    pre_save [("html", Renderer.fn (fun s => s))]
        ⟨some "x", some "bad", none⟩ ≠
      (⟨some "x", some "bad", none⟩, .error (.valueError
        (invalidMarkupTypeMsg "bad" [("html", Renderer.fn (fun s => s))]))) := by
  constructor
  · rfl
  · intro h
    have h1 : pre_save [("html", Renderer.fn (fun s => s))]
        ⟨some "x", some "bad", none⟩ =
        ((⟨some "x", some "bad", none⟩ : Host),
          Except.error (PyErr.keyError "bad")) := rfl
    rw [h1] at h
    simp at h

/-- C2 amended: persisting a record whose current markup type is not a
registry key raises `KeyError` naming only the invalid type (from the
dict lookup in `MarkupDescriptor.__get__`, reached through `pre_save`),
and leaves the host's raw text, markup type and rendered cache unchanged
from their pre-call values. -/
theorem pre_save_invalid_type_keyerror (choices : Registry) (host : Host)
    (mt : String) (hmt : host.markupType = some mt)
    (hlk : choices.lookup mt = none) :
    pre_save choices host = (host, .error (.keyError mt)) := by
  unfold pre_save markupDescriptorGet
  simp [hmt, hlk]

/-- C2 amended witness: unregistered type bad against a registry with the
single key html. -/
theorem pre_save_invalid_type_keyerror_witness :
    pre_save [("html", Renderer.fn (fun s => s))]
        ⟨some "x", some "bad", some "old"⟩ =
      (⟨some "x", some "bad", some "old"⟩, .error (.keyError "bad")) :=
  pre_save_invalid_type_keyerror [("html", Renderer.fn (fun s => s))]
    ⟨some "x", some "bad", some "old"⟩ "bad" rfl rfl

/-- C3: assigning a full accessor snapshot A to the field of record R
copies A's raw text, rendered cache and markup type verbatim onto R's
three slots with no renderer invoked, so any subsequent read of the field
yields an accessor agreeing with A on raw, markup type and rendered. -/
theorem descriptor_set_accessor_copies (choices : Registry) (R : Host)
    (A acc : Markup)
    (h : markupDescriptorGet choices
        (some (markupDescriptorSet R (.markup A))) = .ok (some acc)) :
    markupDescriptorSet R (.markup A) = ⟨A.raw, A.markup_type, A.rendered⟩ ∧
    acc.raw = A.raw ∧ acc.markup_type = A.markup_type ∧
    acc.rendered = A.rendered := by
  have hh := markupDescriptorGet_host _ _ _ h
  refine ⟨rfl, ?_, ?_, ?_⟩ <;>
    simp [Markup.raw, Markup.markup_type, Markup.rendered, hh,
      markupDescriptorSet]

/-- C3 witness: a snapshot bound to one record assigned onto another. -/
theorem descriptor_set_accessor_copies_witness :
    markupDescriptorSet ⟨some "a", some "b", some "c"⟩
        (.markup ⟨MarkupClass.base, ⟨some "r", some "html", some "rr"⟩⟩) =
      ⟨some "r", some "html", some "rr"⟩ :=
  (descriptor_set_accessor_copies [("html", Renderer.fn (fun s => s))]
    ⟨some "a", some "b", some "c"⟩
    ⟨MarkupClass.base, ⟨some "r", some "html", some "rr"⟩⟩
    ⟨MarkupClass.base, ⟨some "r", some "html", some "rr"⟩⟩ rfl).1

/-- C4: an instance read yields null when the markup type is null; yields
null when the registered entry is a plain function and the raw text is
null; otherwise yields a bound accessor whose concrete class is the
registry's rich class for the current type when the entry is rich, else
the default Markup class. -/
theorem markup_descriptor_get_cases (choices : Registry) (host : Host) :
    (host.markupType = none →
      markupDescriptorGet choices (some host) = .ok none) ∧
    (∀ mt f, host.markupType = some mt →
      choices.lookup mt = some (Renderer.fn f) → host.raw = none →
      markupDescriptorGet choices (some host) = .ok none) ∧
    (∀ mt f r, host.markupType = some mt →
      choices.lookup mt = some (Renderer.fn f) → host.raw = some r →
      markupDescriptorGet choices (some host) =
        .ok (some ⟨MarkupClass.base, host⟩)) ∧
    (∀ mt g, host.markupType = some mt →
      choices.lookup mt = some (Renderer.cls g) →
      markupDescriptorGet choices (some host) =
        .ok (some ⟨MarkupClass.rich g, host⟩)) := by
  refine ⟨?_, ?_, ?_, ?_⟩
  · intro h
    unfold markupDescriptorGet
    simp [h]
  · intro mt f h1 h2 h3
    unfold markupDescriptorGet
    simp [h1, h2, h3]
  · intro mt f r h1 h2 h3
    unfold markupDescriptorGet
    simp [h1, h2, h3]
  · intro mt g h1 h2
    unfold markupDescriptorGet
    simp [h1, h2]

/-- C4 witness: a null markup type reads as null. -/
theorem markup_descriptor_get_cases_witness :
    markupDescriptorGet [("html", Renderer.fn (fun s => s))]
        (some ⟨some "x", none, none⟩) = .ok none :=
  (markup_descriptor_get_cases [("html", Renderer.fn (fun s => s))]
    ⟨some "x", none, none⟩).1 rfl

/-- C5: at field-definition time, a truthy fixed markup type together with
a truthy registry or truthy default raises the cannot-specify-both
configuration error; a truthy registry without a truthy default raises a
configuration error; and a truthy effective fixed/default type missing
from the effective registry raises a configuration error — all inside the
field constructor, before any instance exists. -/
theorem markup_field_init_validation (g : Registry) (mt : Option String)
    (mc : Option Registry) (dmt : Option String) :
    (optStrTruthy mt = true →
      (optRegTruthy mc || optStrTruthy dmt) = true →
      markupFieldInit g mt mc dmt = .error (.valueError
        "Cannot specify both markup_type and markup_choices/default_markup_type")) ∧
    (optRegTruthy mc = true → optStrTruthy dmt = false →
      ∃ e, markupFieldInit g mt mc dmt = .error e) ∧
    (optStrTruthy (if optStrTruthy mt then mt else dmt) = true →
      ((if optStrTruthy mt then mt else dmt).bind
        (if optRegTruthy mc then mc.getD [] else g).lookup).isNone = true →
      ∃ e, markupFieldInit g mt mc dmt = .error e) := by
  refine ⟨?_, ?_, ?_⟩
  · intro h1 h2
    unfold markupFieldInit
    simp [h1, h2]
  · intro h1 h2
    unfold markupFieldInit
    split
    · exact ⟨_, rfl⟩
    · simp [h1, h2]
  · intro h1 h2
    unfold markupFieldInit
    split
    · exact ⟨_, rfl⟩
    · split
      · exact ⟨_, rfl⟩
      · simp only [h1, h2, Bool.and_self]
        exact ⟨_, rfl⟩

/-- C5 witness: a fixed markup type together with a registry raises the
cannot-specify-both error in the constructor. -/
theorem markup_field_init_validation_witness :
    markupFieldInit [] (some "html")
        (some [("html", Renderer.fn (fun s => s))]) none =
      .error (.valueError
        "Cannot specify both markup_type and markup_choices/default_markup_type") :=
  (markup_field_init_validation [] (some "html")
    (some [("html", Renderer.fn (fun s => s))]) none).1 rfl rfl

/-- C6: when the descriptor read inside `pre_save` yields null — markup
type null, or a plain-function entry with null raw text — the hook fails
with an attribute access on None (reading markup_type of None), never
with the invalid-markup-type ValueError, and the rendered cache is not
written. -/
theorem pre_save_none_accessor (choices : Registry) (host : Host)
    (h : host.markupType = none ∨
      ∃ mt f, host.markupType = some mt ∧
        choices.lookup mt = some (Renderer.fn f) ∧ host.raw = none) :
    pre_save choices host =
      (host, .error (.noneTypeAttributeError "markup_type")) ∧
    ∀ msg, pre_save choices host ≠ (host, .error (.valueError msg)) := by
  have hget : markupDescriptorGet choices (some host) = .ok none := by
    rcases h with h | ⟨mt, f, h1, h2, h3⟩
    · unfold markupDescriptorGet
      simp [h]
    · unfold markupDescriptorGet
      simp [h1, h2, h3]
  constructor
  · unfold pre_save
    simp [hget]
  · intro msg hcontra
    unfold pre_save at hcontra
    simp [hget] at hcontra

/-- C6 witness: a fresh record with null markup type. -/
theorem pre_save_none_accessor_witness :
    pre_save [("html", Renderer.fn (fun s => s))] ⟨some "x", none, none⟩ =
      (⟨some "x", none, none⟩,
        .error (.noneTypeAttributeError "markup_type")) :=
  (pre_save_none_accessor [("html", Renderer.fn (fun s => s))]
    ⟨some "x", none, none⟩ (Or.inl rfl)).1

/-- C7: whenever the export operation reaches an accessor, its result is
the record's raw text — never the rendered cache, never the markup
type. -/
theorem value_to_string_returns_raw (choices : Registry) (host : Host)
    (acc : Markup)
    (h : markupDescriptorGet choices (some host) = .ok (some acc)) :
    value_to_string choices host = .ok host.raw := by
  have hh := markupDescriptorGet_host _ _ _ h
  unfold value_to_string
  simp [h, Markup.raw, hh]

/-- C7 witness: export of a persisted record yields its raw text, not its
rendered cache. -/
theorem value_to_string_returns_raw_witness :
    value_to_string [("html", Renderer.fn (fun s => s))]
        ⟨some "x", some "html", some "rendered"⟩ = .ok (some "x") :=
  value_to_string_returns_raw [("html", Renderer.fn (fun s => s))]
    ⟨some "x", some "html", some "rendered"⟩
    ⟨MarkupClass.base, ⟨some "x", some "html", some "rendered"⟩⟩ rfl

/-- C8: a non-accessor assignment writes the value to the raw-text slot
and leaves the markup-type and rendered-cache slots untouched; no
renderer is involved. -/
theorem descriptor_set_raw_write (obj : Host) (v : Option String) :
    (markupDescriptorSet obj (.rawVal v)).raw = v ∧
    (markupDescriptorSet obj (.rawVal v)).markupType = obj.markupType ∧
    (markupDescriptorSet obj (.rawVal v)).rendered = obj.rendered :=
  ⟨rfl, rfl, rfl⟩

/-- C9: reading the field on the class itself (no instance) raises the
AttributeError saying the field can only be accessed via an instance. -/
theorem descriptor_class_access_error (choices : Registry) :
    markupDescriptorGet choices none =
      .error (.attributeError "Can only be accessed via an instance.") := rfl

/-- C10: string conversion of any accessor obtained from an instance read
returns the host's currently cached rendered HTML wrapped as safe
(pre-escaped/trusted), with no renderer invoked. -/
theorem accessor_str_is_cached_rendered (choices : Registry) (host : Host)
    (acc : Markup)
    (h : markupDescriptorGet choices (some host) = .ok (some acc)) :
    Markup.unicode acc = mark_safe host.rendered := by
  have hh := markupDescriptorGet_host _ _ _ h
  simp [Markup.unicode, Markup.rendered, hh]

/-- C10 witness: the accessor of a record whose cache holds some HTML
converts to that HTML marked safe. -/
theorem accessor_str_is_cached_rendered_witness :
    Markup.unicode
        ⟨MarkupClass.base, ⟨some "x", some "html", some "<p>x</p>"⟩⟩ =
      mark_safe (some "<p>x</p>") :=
  accessor_str_is_cached_rendered [("html", Renderer.fn (fun s => s))]
    ⟨some "x", some "html", some "<p>x</p>"⟩
    ⟨MarkupClass.base, ⟨some "x", some "html", some "<p>x</p>"⟩⟩ rfl
